import Mathlib

/-!
# Verification of the last-mile delivery dashboard data layer

Shallow embedding of the data-preparation and aggregation layer of
`app.py`: cleaning (numeric coercion + dropna), the derived `Is_Late`
column, the Area/Vehicle filter, and the summary metrics.

A table is a `List Row`, one `Row` per dataframe row, in dataframe
order.  A cell of a numeric-designated column is a `Cell`:
`Cell.num q` stands for a cell whose content is (or parses as) the
number `q`, `Cell.nonNumeric` for a cell whose content cannot be
parsed as a number, and `Cell.missing` for an absent cell (NaN).
-/

/-- A cell of a numeric-designated column, before or after coercion. -/
inductive Cell where
  | num (q : ℚ)
  | nonNumeric
  | missing
deriving Repr, DecidableEq

/-- Returns `true` iff the cell holds an actual number. -/
def Cell.isNum : Cell → Bool
  | .num _ => true
  | _ => false

/-- The numeric value of a cell, if it holds one. -/
def Cell.val : Cell → Option ℚ
  | .num q => some q
  | _ => none

/-- One row of the delivery table.  Field names follow the CSV column
names used in `app.py`.  Categorical columns that the cleaning step
checks with `dropna` are `Option String` (`none` = NaN); `Category` is
a plain categorical string per the data model.  `Is_Late` is the
derived column of line 45, `false` until derived. -/
structure Row where
  Order_ID : String
  Delivery_Time : Cell
  Agent_Rating : Cell
  Agent_Age : Cell
  Weather : Option String
  Traffic : Option String
  Vehicle : Option String
  Area : Option String
  Category : String
  Store_Latitude : Cell
  Store_Longitude : Cell
  Is_Late : Bool := false
deriving Repr, DecidableEq

/-- Coercion `pd.to_numeric(col, errors='coerce')` on one cell: a numeric cell
is kept, a non-numeric cell becomes NaN (absent), NaN stays NaN. -/
def to_numeric : Cell → Cell
  | .num q => .num q
  | .nonNumeric => .missing
  | .missing => .missing

/-- Lines 34-36 of `app.py`: coerce the three numeric-designated
columns of a row. -/
def coerceRow (r : Row) : Row :=
  { r with
    Delivery_Time := to_numeric r.Delivery_Time
    Agent_Rating := to_numeric r.Agent_Rating
    Agent_Age := to_numeric r.Agent_Age }

/-- The `dropna(subset=['Delivery_Time','Weather','Traffic','Vehicle','Area'])`
predicate of line 39: all five required cells present. -/
def requiredPresent (r : Row) : Bool :=
  r.Delivery_Time.isNum && r.Weather.isSome && r.Traffic.isSome &&
    r.Vehicle.isSome && r.Area.isSome

/-- Lines 34-39 of `app.py`: coerce the numeric columns, then drop
rows missing any required field.  Produces `df_clean`. -/
def clean (t : List Row) : List Row :=
  (t.map coerceRow).filter requiredPresent

/-- Line 44 of `app.py`. -/
def LATE_THRESHOLD : ℚ := 120

/-- The comparison `Delivery_Time > threshold` of line 45, with the
pandas convention that `NaN > threshold` is `False`. -/
def lateOf (threshold : ℚ) : Cell → Bool
  | .num d => decide (threshold < d)
  | _ => false

/-- Line 45 of `app.py`: add the derived boolean `Is_Late` column. -/
def deriveLate (t : List Row) (threshold : ℚ) : List Row :=
  t.map fun r => { r with Is_Late := lateOf threshold r.Delivery_Time }

/-- Membership `col.isin(sel)` on one cell: NaN is in no selection. -/
def isin (c : Option String) (sel : List String) : Bool :=
  match c with
  | some x => sel.contains x
  | none => false

/-- Lines 59-62 of `app.py`: `if selected_area: ... else: ...`.  A
Python list is falsy exactly when empty, so an empty selection leaves
the table unchanged; a non-empty one keeps the rows whose Area is in
it. -/
def filterByArea (t : List Row) (selected_area : List String) : List Row :=
  if selected_area = [] then t
  else t.filter fun r => isin r.Area selected_area

/-- Lines 64-65 of `app.py`: `if selected_vehicle: ...` (no `else`,
so an empty selection leaves the table unchanged). -/
def filterByVehicle (t : List Row) (selected_vehicle : List String) : List Row :=
  if selected_vehicle = [] then t
  else t.filter fun r => isin r.Vehicle selected_vehicle

/-- Lines 59-65 of `app.py`: the two sidebar filters applied in
sequence, producing `df_filtered`. -/
def filterTable (t : List Row) (selected_area selected_vehicle : List String) :
    List Row :=
  filterByVehicle (filterByArea t selected_area) selected_vehicle

/-- Line 51 of `app.py`: `sorted(df_clean['Area'].unique())`
(`unique` keeps the distinct non-NaN values; `sorted` orders them). -/
def areas (t : List Row) : List String :=
  List.insertionSort (· ≤ ·) (t.filterMap (·.Area)).dedup

/-- Line 55 of `app.py`: `sorted(df_clean['Vehicle'].unique())`. -/
def vehicles (t : List Row) : List String :=
  List.insertionSort (· ≤ ·) (t.filterMap (·.Vehicle)).dedup

/-- Line 72 of `app.py`: `len(df_filtered)`. -/
def total_orders (t : List Row) : ℕ := t.length

/-- Pandas `Series.mean()`: arithmetic mean of the present values,
NaN (`none`) when there are none. -/
def seriesMean (xs : List ℚ) : Option ℚ :=
  if xs = [] then none else some (xs.sum / xs.length)

/-- Line 73 of `app.py`: `df_filtered['Delivery_Time'].mean()`. -/
def avg_delivery_time (t : List Row) : Option ℚ :=
  seriesMean (t.filterMap fun r => r.Delivery_Time.val)

/-- Line 74 of `app.py`: `df_filtered['Agent_Rating'].mean()`. -/
def avg_rating (t : List Row) : Option ℚ :=
  seriesMean (t.filterMap fun r => r.Agent_Rating.val)

/-- The sum `df_filtered['Is_Late'].sum()`: the number of `True` cells. -/
def late_count (t : List Row) : ℕ := (t.filter (·.Is_Late)).length

/-- Line 75 of `app.py`:
`(df_filtered['Is_Late'].sum() / total_orders) * 100 if total_orders > 0 else 0`. -/
def late_percentage (t : List Row) : ℚ :=
  if total_orders t > 0 then
    ((late_count t : ℚ) / (total_orders t : ℚ)) * 100
  else 0

/-- The one-decimal display rounding of line 81 (Python format .1f). -/
def fmt1 (q : ℚ) : ℚ := (round (10 * q) : ℤ) / 10

/-- Modelled from the spec: the by-Category counting that `px.pie`
(line 103, part of the black-box rendering layer) performs on
`df_filtered` — "`byCategory(table) -> ordered list of (category,
count)`, one entry per distinct Category value present". -/
def byCategory (t : List Row) : List (String × ℕ) :=
  (t.map (·.Category)).dedup.map fun c => (c, (t.map (·.Category)).count c)

/-- Modelled from the spec: the scatter-point extraction that
`px.scatter` (lines 123-126, part of the black-box rendering layer)
performs — "`ageRatingPoints(table) -> list of (age, rating, vehicle,
duration, orderId)` — one entry per row with both age and rating
present; rows missing either are skipped". -/
def ageRatingPoints (t : List Row) :
    List (ℚ × ℚ × Option String × Cell × String) :=
  t.filterMap fun r =>
    match r.Agent_Age.val, r.Agent_Rating.val with
    | some a, some g => some (a, g, r.Vehicle, r.Delivery_Time, r.Order_ID)
    | _, _ => none

/-- A row with all required fields present and the other fields
varying, used for concrete instances. -/
def mkRow (id : String) (d : Cell) (area veh : String) : Row :=
  { Order_ID := id
    Delivery_Time := d
    Agent_Rating := .missing
    Agent_Age := .missing
    Weather := some "Sunny"
    Traffic := some "Low"
    Vehicle := some veh
    Area := some area
    Category := "Food"
    Store_Latitude := .missing
    Store_Longitude := .missing }

/-- The three-row scenario table of the spec: durations 90, 130, 150. -/
def sample3 : List Row :=
  [mkRow "1" (.num 90) "Urban" "Bike",
   mkRow "2" (.num 130) "Urban" "Bike",
   mkRow "3" (.num 150) "Urban" "Bike"]

/-- A two-row table realising the spec scenario for the filter:
Areas {Urban, Rural}, Vehicles {Bike, Van}. -/
def rowUB : Row := mkRow "u1" (.num 50) "Urban" "Bike"

/-- The Rural/Van row of the filter scenario. -/
def rowRV : Row := mkRow "r1" (.num 60) "Rural" "Van"

/-- The filter-scenario table. -/
def scenarioT : List Row := [rowUB, rowRV]

lemma mem_filterByArea {t : List Row} {r : Row} {A : List String} {a : String}
    (ha : r.Area = some a) :
    r ∈ filterByArea t A ↔ r ∈ t ∧ (A = [] ∨ a ∈ A) := by
  unfold filterByArea
  by_cases h : A = []
  · simp [h]
  · simp [h, List.mem_filter, isin, ha]

lemma mem_filterByVehicle {t : List Row} {r : Row} {V : List String} {v : String}
    (hv : r.Vehicle = some v) :
    r ∈ filterByVehicle t V ↔ r ∈ t ∧ (V = [] ∨ v ∈ V) := by
  unfold filterByVehicle
  by_cases h : V = []
  · simp [h]
  · simp [h, List.mem_filter, isin, hv]

/-- C1: a row (with its Area and Vehicle present, as in every cleaned
row) appears in the filtered table iff it appears in the input and
(the area selection is empty or contains its Area) and (the vehicle
selection is empty or contains its Vehicle): an empty selection
imposes no constraint rather than excluding every row. -/
theorem mem_filterTable_iff (t : List Row) (A V : List String) (r : Row)
    (a v : String) (ha : r.Area = some a) (hv : r.Vehicle = some v) :
    r ∈ filterTable t A V ↔
      r ∈ t ∧ (A = [] ∨ a ∈ A) ∧ (V = [] ∨ v ∈ V) := by
  unfold filterTable
  rw [mem_filterByVehicle hv, mem_filterByArea ha]
  tauto

/-- Witness for C1, on the spec scenario: `areaSet = {"Urban"}`,
`vehicleSet = {}` retains the Urban row regardless of its Vehicle. -/
theorem mem_filterTable_iff_witness :
    rowUB.Area = some "Urban" ∧ rowUB.Vehicle = some "Bike" ∧
      (rowUB ∈ filterTable scenarioT ["Urban"] [] ↔
        rowUB ∈ scenarioT ∧
          (["Urban"] = ([] : List String) ∨ "Urban" ∈ ["Urban"]) ∧
          (([] : List String) = [] ∨ "Bike" ∈ ([] : List String))) :=
  ⟨rfl, rfl, mem_filterTable_iff scenarioT ["Urban"] [] rowUB "Urban" "Bike" rfl rfl⟩

/-- C2: the summary metrics of an empty filtered table are defined
(no division-by-zero error): count 0, late percentage 0, and the two
means are NaN (`none`). -/
theorem summaryMetrics_empty :
    total_orders ([] : List Row) = 0 ∧ late_percentage [] = 0 ∧
      avg_delivery_time [] = none ∧ avg_rating [] = none :=
  ⟨rfl, rfl, rfl, rfl⟩

/-- C10: the filtered table is a sublist of its input — retained rows
are unchanged (all fields, `Is_Late` included), keep their relative
order, and no row is duplicated or added. -/
theorem filterTable_sublist (t : List Row) (A V : List String) :
    (filterTable t A V).Sublist t := by
  have h1 : (filterByArea t A).Sublist t := by
    unfold filterByArea
    split
    · exact List.Sublist.refl t
    · exact List.filter_sublist t
  have h2 : (filterTable t A V).Sublist (filterByArea t A) := by
    unfold filterTable filterByVehicle
    split
    · exact List.Sublist.refl _
    · exact List.filter_sublist _
  exact h2.trans h1

lemma isNum_to_numeric (c : Cell) : (to_numeric c).isNum = c.isNum := by
  cases c <;> rfl

lemma to_numeric_idem (c : Cell) : to_numeric (to_numeric c) = to_numeric c := by
  cases c <;> rfl

lemma coerceRow_idem (r : Row) : coerceRow (coerceRow r) = coerceRow r := by
  simp [coerceRow, to_numeric_idem]

/-- C3: cleaning keeps exactly the rows whose duration cell holds a
number and whose Weather, Traffic, Vehicle and Area are present, in
input order, each kept row coerced (so an unparsable rating or age
cell becomes absent rather than an error, and kept rows may still
lack rating or age). -/
theorem clean_spec (t : List Row) :
    clean t = (t.filter fun r =>
      r.Delivery_Time.isNum && r.Weather.isSome && r.Traffic.isSome &&
        r.Vehicle.isSome && r.Area.isSome).map coerceRow := by
  unfold clean
  rw [List.filter_map]
  have hp : (requiredPresent ∘ coerceRow) = fun r =>
      r.Delivery_Time.isNum && r.Weather.isSome && r.Traffic.isSome &&
        r.Vehicle.isSome && r.Area.isSome := by
    funext r
    simp [Function.comp, requiredPresent, coerceRow, isNum_to_numeric]
  rw [hp]

/-- C7: cleaning is idempotent — cleaning an already-cleaned table
removes no further rows and changes no cell. -/
theorem clean_idem (t : List Row) : clean (clean t) = clean t := by
  have hmap : (clean t).map coerceRow = clean t := by
    have hfix : ∀ r ∈ clean t, coerceRow r = r := by
      intro r hr
      have hr' : r ∈ t.map coerceRow := List.mem_of_mem_filter hr
      obtain ⟨x, _, rfl⟩ := List.mem_map.1 hr'
      exact coerceRow_idem x
    calc (clean t).map coerceRow = (clean t).map id :=
          List.map_congr_left hfix
      _ = clean t := List.map_id _
  have hfilter : (clean t).filter requiredPresent = clean t :=
    List.filter_eq_self.2 fun r hr => List.of_mem_filter hr
  show ((clean t).map coerceRow).filter requiredPresent = clean t
  rw [hmap, hfilter]

/-- The identity on a row except that the derived `Is_Late` column is
reset, used to state that `deriveLate` touches nothing else. -/
def eraseLate (r : Row) : Row := { r with Is_Late := false }

/-- C4: `deriveLate` drops no rows, reorders no rows and changes no
other field, and sets `Is_Late` on every row to true exactly when the
row's duration is strictly greater than the threshold. -/
theorem deriveLate_spec (t : List Row) (threshold : ℚ) :
    (deriveLate t threshold).map eraseLate = t.map eraseLate ∧
      (deriveLate t threshold).map (·.Is_Late) =
        t.map (fun r => lateOf threshold r.Delivery_Time) ∧
      ∀ r ∈ deriveLate t threshold, ∀ d : ℚ, r.Delivery_Time = .num d →
        (r.Is_Late = true ↔ threshold < d) := by
  refine ⟨?_, ?_, ?_⟩
  · unfold deriveLate
    rw [List.map_map]
    rfl
  · unfold deriveLate
    rw [List.map_map]
    rfl
  · intro r hr d hd
    unfold deriveLate at hr
    obtain ⟨x, _, rfl⟩ := List.mem_map.1 hr
    simp only at hd
    simp [lateOf, hd]

/-- The second row of the scenario table after `deriveLate`, with its
derived `Is_Late = true`. -/
def row2L : Row := { mkRow "2" (.num 130) "Urban" "Bike" with Is_Late := true }

/-- Witness for C4: in the derived three-row scenario table, the row
with duration 130 carries `Is_Late = true` because 130 > 120. -/
theorem deriveLate_spec_witness :
    row2L ∈ deriveLate sample3 LATE_THRESHOLD ∧
      row2L.Delivery_Time = .num 130 ∧
      (row2L.Is_Late = true ↔ LATE_THRESHOLD < 130) :=
  ⟨by decide, rfl,
    (deriveLate_spec sample3 LATE_THRESHOLD).2.2 row2L (by decide) 130 rfl⟩

/-- C5: on a non-empty table the late percentage is
`100 × lateCount / count`, and on the three-row scenario (durations
90, 130, 150, threshold 120) `Is_Late` is `[false, true, true]` and
the percentage displays as 66.7. -/
theorem late_percentage_spec (t : List Row) (h : 0 < total_orders t) :
    late_percentage t = 100 * (late_count t : ℚ) / (total_orders t : ℚ) ∧
      (deriveLate sample3 LATE_THRESHOLD).map (·.Is_Late) =
        [false, true, true] ∧
      fmt1 (late_percentage (deriveLate sample3 LATE_THRESHOLD)) = 667 / 10 := by
  refine ⟨?_, by decide, ?_⟩
  · unfold late_percentage
    rw [if_pos h]
    ring
  · have h3 : late_percentage (deriveLate sample3 LATE_THRESHOLD) = 200 / 3 := by
      norm_num [late_percentage, late_count, total_orders, deriveLate, sample3,
        mkRow, lateOf, LATE_THRESHOLD, List.filter]
    rw [h3]
    norm_num [fmt1, round_eq]

/-- Witness for C5, at the derived three-row scenario table. -/
theorem late_percentage_spec_witness :
    0 < total_orders (deriveLate sample3 LATE_THRESHOLD) ∧
      (late_percentage (deriveLate sample3 LATE_THRESHOLD) =
          100 * (late_count (deriveLate sample3 LATE_THRESHOLD) : ℚ) /
            (total_orders (deriveLate sample3 LATE_THRESHOLD) : ℚ) ∧
        (deriveLate sample3 LATE_THRESHOLD).map (·.Is_Late) =
          [false, true, true] ∧
        fmt1 (late_percentage (deriveLate sample3 LATE_THRESHOLD)) = 667 / 10) :=
  ⟨by decide, late_percentage_spec (deriveLate sample3 LATE_THRESHOLD) (by decide)⟩

/-- C6: the per-category counts of the pie-chart aggregation sum to
the total number of rows of its input table. -/
theorem byCategory_sum (t : List Row) :
    ((byCategory t).map Prod.snd).sum = total_orders t := by
  unfold byCategory total_orders
  rw [List.map_map]
  simpa [Function.comp] using
    List.sum_map_count_dedup_eq_length (t.map (·.Category))

/-- C8: the scatter aggregation returns one point per row having both
age and rating present and silently skips the others, so the number
of points equals the number of rows with both fields present. -/
theorem ageRatingPoints_length (t : List Row) :
    (ageRatingPoints t).length =
      (t.filter fun r => r.Agent_Age.isNum && r.Agent_Rating.isNum).length := by
  induction t with
  | nil => rfl
  | cons x xs ih =>
    simp only [ageRatingPoints, List.filterMap_cons, List.filter_cons] at *
    cases hA : x.Agent_Age <;> cases hR : x.Agent_Rating <;>
      simp_all [Cell.val, Cell.isNum]

lemma mem_areas {t : List Row} {r : Row} {a : String} (ha : r.Area = some a)
    (hr : r ∈ t) : a ∈ areas t := by
  unfold areas
  rw [List.mem_insertionSort, List.mem_dedup]
  exact List.mem_filterMap.2 ⟨r, hr, ha⟩

lemma mem_vehicles {t : List Row} {r : Row} {v : String}
    (hv : r.Vehicle = some v) (hr : r ∈ t) : v ∈ vehicles t := by
  unfold vehicles
  rw [List.mem_insertionSort, List.mem_dedup]
  exact List.mem_filterMap.2 ⟨r, hr, hv⟩

/-- C9: with the session-start default selections — the sorted
distinct Area and Vehicle values of the cleaned table — the filter is
the identity on any table whose rows all have Area and Vehicle
present (as every cleaned row does). -/
theorem filterTable_default_id (t : List Row)
    (h : ∀ r ∈ t, r.Area.isSome ∧ r.Vehicle.isSome) :
    filterTable t (areas t) (vehicles t) = t := by
  have hA : filterByArea t (areas t) = t := by
    unfold filterByArea
    split
    · rfl
    · apply List.filter_eq_self.2
      intro r hr
      obtain ⟨a, ha⟩ := Option.isSome_iff_exists.1 (h r hr).1
      simpa [isin, ha] using mem_areas ha hr
  have hV : filterByVehicle t (vehicles t) = t := by
    unfold filterByVehicle
    split
    · rfl
    · apply List.filter_eq_self.2
      intro r hr
      obtain ⟨v, hv⟩ := Option.isSome_iff_exists.1 (h r hr).2
      simpa [isin, hv] using mem_vehicles hv hr
  unfold filterTable
  rw [hA, hV]

/-- Witness for C9: on the concrete two-row scenario table, filtering
with the default selections returns the table itself. -/
theorem filterTable_default_id_witness :
    filterTable scenarioT (areas scenarioT) (vehicles scenarioT) = scenarioT :=
  filterTable_default_id scenarioT (by decide)
